import Mathlib

/-!
Verification of the Omegatron provider-dispatch layer.

The definitions below are a shallow embedding of the repository's Python
source (`main.py` and `providers/*.py`): pure string processing is
translated function by function, network calls become explicit parameters
(the upstream reply / the list of mirror outcomes), and nondeterministic
fields (uuid ids, timestamps) are omitted from the normalized response
record.  All definitions are executable, so concrete behaviour can be
checked with `decide`.
-/

deriving instance DecidableEq for Except

namespace Omegatron

/-! ## Python string primitives -/

/-- ASCII whitespace as recognised by Python's `str.split()` / `str.strip()`
(the repository's inputs are ASCII). -/
def isWs (c : Char) : Bool :=
  c = ' ' || c = '\t' || c = '\n' || c = '\r' || c = '\x0b' || c = '\x0c'

/-- Helper for `pySplit`: accumulates the current (reversed) word. -/
def splitWsAux (cur : List Char) : List Char → List (List Char)
  | [] => if cur.isEmpty then [] else [cur.reverse]
  | c :: rest =>
    if isWs c then
      if cur.isEmpty then splitWsAux [] rest
      else cur.reverse :: splitWsAux [] rest
    else splitWsAux (c :: cur) rest

/-- Python `s.split()` with no argument: split on runs of whitespace,
dropping empty pieces. -/
def pySplit (s : String) : List String :=
  (splitWsAux [] s.data).map fun l => String.mk l

/-- Number of whitespace-delimited words, i.e. Python `len(s.split())`. -/
def wordCount (s : String) : Nat :=
  (pySplit s).length

/-- Python `s.strip()` on a character list. -/
def stripChars (l : List Char) : List Char :=
  ((l.dropWhile isWs).reverse.dropWhile isWs).reverse

/-- Python `s.strip()`. -/
def pyStrip (s : String) : String :=
  String.mk (stripChars s.data)

/-- Python `s.split(sep)` for a single-newline separator, keeping empty
pieces (so `"".split(sep) = [""]`). -/
def splitNlChars : List Char → List (List Char)
  | [] => [[]]
  | c :: rest =>
    if c = '\n' then [] :: splitNlChars rest
    else
      match splitNlChars rest with
      | [] => [[c]]
      | w :: ws => (c :: w) :: ws

/-- Python `s.split("\n")`. -/
def splitLines (s : String) : List String :=
  (splitNlChars s.data).map fun l => String.mk l

/-- Python `s.replace(p₁p₂, rep)` for a two-character pattern: scan left to
right, replacing non-overlapping occurrences. -/
def replace2 (p1 p2 : Char) (rep : List Char) : List Char → List Char
  | [] => []
  | [c] => [c]
  | c :: d :: rest =>
    if c = p1 && d = p2 then rep ++ replace2 p1 p2 rep rest
    else c :: replace2 p1 p2 rep (d :: rest)

/-- Python `s.replace(p₁p₂p₃p₄, rep)` for a four-character pattern. -/
def replace4 (p1 p2 p3 p4 : Char) (rep : List Char) : List Char → List Char
  | a :: b :: c :: d :: rest =>
    if a = p1 && b = p2 && c = p3 && d = p4 then
      rep ++ replace4 p1 p2 p3 p4 rep rest
    else a :: replace4 p1 p2 p3 p4 rep (b :: c :: d :: rest)
  | other => other

/-! ## Data model (`providers/base.py`) -/

/-- A chat message: `Message(role, content)` from `providers/base.py`. -/
structure Message where
  role : String
  content : String
deriving DecidableEq

/-- The fields of `ChatCompletionRequest` that the dispatch layer reads
(`model`, `messages`, `stream`); the pass-through sampling fields are not
modelled. -/
structure ChatCompletionRequest where
  model : String
  messages : List Message
  stream : Bool
deriving DecidableEq

/-- `Usage` from `providers/base.py`. -/
structure Usage where
  prompt_tokens : Nat
  completion_tokens : Nat
  total_tokens : Nat
deriving DecidableEq

/-- The deterministic payload of a `ChatCompletionResponse` as every
provider builds it: one choice with an assistant message and a usage
record.  The nondeterministic `id`/`created` fields and the constant
`object`/`model` fields are omitted. -/
structure ChatCompletionResponse where
  content : String
  finish_reason : String
  usage : Usage
deriving DecidableEq

/-- Python `sum(len(msg["content"].split()) for msg in messages)`, the
prompt-token estimate shared by the providers. -/
def sumWc (msgs : List Message) : Nat :=
  (msgs.map fun m => wordCount m.content).sum

/-! ## Model registry (`main.py`, module level) -/

/-- `FlowithProvider.models` from `providers/flowith.py`. -/
def flowith_models : List String :=
  ["gpt-5-nano", "gpt-5-mini", "glm-4.5", "gpt-oss-120b", "gpt-oss-20b",
   "kimi-k2", "gpt-4.1", "gpt-4.1-mini", "deepseek-chat",
   "deepseek-reasoner", "gemini-2.5-flash", "grok-3-mini"]

/-- `CloudflareProvider.models` from `providers/cloudflare.py`. -/
def cloudflare_models : List String :=
  ["deepseek-coder-6.7b-base-awq", "deepseek-coder-6.7b-instruct-awq",
   "deepseek-math-7b-instruct", "deepseek-r1-distill-qwen-32b",
   "discolm-german-7b-v1-awq", "falcon-7b-instruct", "gemma-3-12b-it",
   "gemma-7b-it", "hermes-2-pro-mistral-7b", "llama-2-13b-chat-awq",
   "llama-2-7b-chat-fp16", "llama-2-7b-chat-int8", "llama-3-8b-instruct",
   "llama-3-8b-instruct-awq", "llama-3.1-8b-instruct-awq",
   "llama-3.1-8b-instruct-fp8", "llama-3.2-11b-vision-instruct",
   "llama-3.2-1b-instruct", "llama-3.2-3b-instruct",
   "llama-3.3-70b-instruct-fp8-fast", "llama-4-scout-17b-16e-instruct",
   "llama-guard-3-8b", "llamaguard-7b-awq", "meta-llama-3-8b-instruct",
   "mistral-7b-instruct-v0.1", "mistral-7b-instruct-v0.2",
   "mistral-small-3.1-24b-instruct", "neural-chat-7b-v3-1-awq",
   "openchat-3.5-0106", "openhermes-2.5-mistral-7b-awq", "phi-2",
   "qwen1.5-0.5b-chat", "qwen1.5-1.8b-chat", "qwen1.5-14b-chat-awq",
   "qwen1.5-7b-chat-awq", "qwen2.5-coder-32b-instruct", "qwq-32b",
   "sqlcoder-7b-2", "starling-lm-7b-beta", "tinyllama-1.1b-chat-v1.0",
   "una-cybertron-7b-v2-bf16", "zephyr-7b-beta-awq"]

/-- `TypefullyProvider.models` from `providers/typefully.py`. -/
def typefully_models : List String := ["claude-3.5-haiku"]

/-- `MinimaxProvider.models` from `providers/minimax.py`. -/
def minimax_models : List String := ["minimax-reasoning-01"]

/-- `OIVSCodeProvider.models` from `providers/oivscode.py`.  Note that
`main.py` imports `OIVSCodeProvider` but never places it in `PROVIDERS`,
so these models are not registered. -/
def oivscode_models : List String :=
  ["gpt-4", "gpt-4-turbo", "gpt-4o", "gpt-4o-mini", "gpt-3.5-turbo",
   "gpt-3.5-turbo-16k", "o1", "o1-mini", "o1-preview", "o3-mini"]

/-- The `PROVIDERS` dict of `main.py` in its insertion order, with each
provider abstracted to its name and model list. -/
def PROVIDERS : List (String × List String) :=
  [("flowith", flowith_models), ("cloudflare", cloudflare_models),
   ("typefully", typefully_models), ("minimax", minimax_models)]

/-- Loop body of the registry construction: iterating the providers in
registration order, each model id is assigned (dict write, so a later
provider overwrites an earlier one).  `acc` is the mapping built so far
for the queried model id. -/
def mpmAux (m : String) (acc : Option String) :
    List (String × List String) → Option String
  | [] => acc
  | p :: rest => mpmAux m (if m ∈ p.2 then some p.1 else acc) rest

/-- Lookup in `MODEL_PROVIDER_MAP` as built by the startup loop of
`main.py` for an arbitrary provider configuration. -/
def modelProviderMap (provs : List (String × List String)) (m : String) :
    Option String :=
  mpmAux m none provs

/-- Python `list(dict.fromkeys(l))`: remove duplicates keeping the first
occurrence of each element. -/
def dedupKeepFirst (l : List String) : List String :=
  l.foldl (fun acc x => if x ∈ acc then acc else acc ++ [x]) []

/-- The concatenation of all providers' model lists (the `ALL_MODELS`
list before deduplication). -/
def allModelsRaw (provs : List (String × List String)) : List String :=
  (provs.map Prod.snd).flatten

/-- `ALL_MODELS` for an arbitrary provider configuration: concatenation
then `list(dict.fromkeys(...))`. -/
def allModels (provs : List (String × List String)) : List String :=
  dedupKeepFirst (allModelsRaw provs)

/-- The concrete `ALL_MODELS` of `main.py`. -/
def ALL_MODELS : List String := allModels PROVIDERS

/-- The concrete `MODEL_PROVIDER_MAP` lookup of `main.py`. -/
def MODEL_PROVIDER_MAP (m : String) : Option String :=
  modelProviderMap PROVIDERS m

/-- The provider names, i.e. the keys of the `PROVIDERS` dict. -/
def PROVIDER_KEYS : List String := PROVIDERS.map Prod.fst

/-- Python `sorted(ALL_MODELS)`: lexicographic sort by code points. -/
def sortedAllModels : List String :=
  List.insertionSort (· ≤ ·) ALL_MODELS

/-! ## Re-streaming emitter (`stream_chat_completion` in `main.py`) -/

/-- One element of the emitted stream: either a `chat.completion.chunk`
frame carrying an optional delta content and an optional finish reason,
or the terminal `data: [DONE]` sentinel line. -/
inductive Frame where
  | chunk (delta : Option String) (finish : Option String)
  | doneSentinel
deriving DecidableEq

/-- Python `" ".join(words)`. -/
def joinSp : List String → String
  | [] => ""
  | [w] => w
  | w :: v :: ws => w ++ " " ++ joinSp (v :: ws)

/-- Delta content of one window: the joined words, space-prefixed unless
this is the first window (`i > 0` in the source loop). -/
def chunkContent (first : Bool) (ws : List String) : String :=
  if first then joinSp ws else " " ++ joinSp ws

/-- The content frames of the emitter loop: windows of three words, the
`first` flag tracking whether `i = 0`. -/
def emitContent (first : Bool) : List String → List Frame
  | [] => []
  | [a] => [.chunk (some (chunkContent first [a])) none]
  | [a, b] => [.chunk (some (chunkContent first [a, b])) none]
  | a :: b :: c :: rest =>
    .chunk (some (chunkContent first [a, b, c])) none :: emitContent false rest

/-- The delta strings of the emitter loop, mirroring `emitContent`. -/
def contentChunks (first : Bool) : List String → List String
  | [] => []
  | [a] => [chunkContent first [a]]
  | [a, b] => [chunkContent first [a, b]]
  | a :: b :: c :: rest =>
    chunkContent first [a, b, c] :: contentChunks false rest

/-- `stream_chat_completion` of `main.py` as the finite sequence of frames
it yields: the content windows, then one empty-delta chunk with finish
reason `stop`, then the `[DONE]` sentinel.  Pacing delays and the
nondeterministic id/created fields are not modelled. -/
def stream_chat_completion (content : String) : List Frame :=
  emitContent true (pySplit content) ++
    [.chunk none (some "stop"), .doneSentinel]

/-! ## Content extractors (`providers/cloudflare.py`, `providers/typefully.py`)

Both extractors scan a raw chunk for the first occurrence of the pattern
`0:"..."` (Python `re.search`, leftmost-then-shortest match, `.` not
matching a newline).  The cloudflare variant additionally requires the
closing quote to be followed by a comma or the end of the string
(lookahead `(?=,|$)`, where `$` also matches just before one trailing
newline). -/

/-- The lookahead `(?=,|$)` of the cloudflare regex, applied to the text
following a candidate closing quote. -/
def lookCF : List Char → Bool
  | [] => true
  | [c] => c = ',' || c = '\n'
  | c :: _ :: _ => c = ','

/-- Non-greedy scan for the closing quote of `0:"(.*?)"(?=,|$)`: returns
the shortest capture, `none` when no valid closing quote is reachable
without crossing a newline. -/
def findCloseCF : List Char → Option (List Char)
  | [] => none
  | c :: rest =>
    if c = '"' && lookCF rest then some []
    else if c = '\n' then none
    else (findCloseCF rest).map fun cs => c :: cs

/-- Non-greedy scan for the closing quote of `0:"(.*?)"` (no lookahead). -/
def findCloseTF : List Char → Option (List Char)
  | [] => none
  | c :: rest =>
    if c = '"' then some []
    else if c = '\n' then none
    else (findCloseTF rest).map fun cs => c :: cs

/-- Whether the three-character marker `0:"` starts at the head of the
list. -/
def markerAt : List Char → Bool
  | '0' :: ':' :: '"' :: _ => true
  | _ => false

/-- Leftmost search for the `0:"` marker followed by a valid capture, as
`re.search` performs it: try every start position from the left, and at a
failed attempt resume one character further. -/
def searchWith (close : List Char → Option (List Char)) :
    List Char → Option (List Char)
  | [] => none
  | c :: rest =>
    if markerAt (c :: rest) then
      match close (rest.drop 2) with
      | some content => some content
      | none => searchWith close rest
    else searchWith close rest

/-- Whether the `0:"` marker occurs anywhere in the chunk. -/
def hasMarker : List Char → Bool
  | [] => false
  | c :: rest => markerAt (c :: rest) || hasMarker rest

/-- Hexadecimal digit value, as accepted inside `\uXXXX` escapes. -/
def hexDigit (c : Char) : Option Nat :=
  if 48 ≤ c.toNat ∧ c.toNat ≤ 57 then some (c.toNat - 48)
  else if 97 ≤ c.toNat ∧ c.toNat ≤ 102 then some (c.toNat - 87)
  else if 65 ≤ c.toNat ∧ c.toNat ≤ 70 then some (c.toNat - 55)
  else none

/-- Octal digit test. -/
def isOct (c : Char) : Bool := 48 ≤ c.toNat && c.toNat ≤ 55

/-- Octal digit value. -/
def octVal (c : Char) : Nat := c.toNat - 48

/-- Python `bytes.decode("unicode_escape")` on ASCII input: decodes the
simple escapes, `\xHH`, `\uXXXX`, `\UXXXXXXXX` and octal escapes, keeps
unknown escapes literally, and fails (`none`, modelling
`UnicodeDecodeError`) on malformed `\x`, `\u`, `\U`, `\N` escapes or a
trailing backslash. -/
def pyUnicodeEscape : List Char → Option (List Char)
  | [] => some []
  | '\\' :: rest =>
    match rest with
    | [] => none
    | e :: r2 =>
      if e = 'n' then (pyUnicodeEscape r2).map fun l => '\n' :: l
      else if e = 't' then (pyUnicodeEscape r2).map fun l => '\t' :: l
      else if e = 'r' then (pyUnicodeEscape r2).map fun l => '\r' :: l
      else if e = '\\' then (pyUnicodeEscape r2).map fun l => '\\' :: l
      else if e = '\x27' then (pyUnicodeEscape r2).map fun l => '\x27' :: l
      else if e = '"' then (pyUnicodeEscape r2).map fun l => '"' :: l
      else if e = 'a' then (pyUnicodeEscape r2).map fun l => '\x07' :: l
      else if e = 'b' then (pyUnicodeEscape r2).map fun l => '\x08' :: l
      else if e = 'f' then (pyUnicodeEscape r2).map fun l => '\x0c' :: l
      else if e = 'v' then (pyUnicodeEscape r2).map fun l => '\x0b' :: l
      else if e = 'x' then
        match r2 with
        | h1 :: h2 :: r3 =>
          match hexDigit h1, hexDigit h2 with
          | some a, some b =>
            (pyUnicodeEscape r3).map fun l => Char.ofNat (a * 16 + b) :: l
          | _, _ => none
        | _ => none
      else if e = 'u' then
        match r2 with
        | h1 :: h2 :: h3 :: h4 :: r3 =>
          match hexDigit h1, hexDigit h2, hexDigit h3, hexDigit h4 with
          | some a, some b, some c, some d =>
            (pyUnicodeEscape r3).map fun l =>
              Char.ofNat (((a * 16 + b) * 16 + c) * 16 + d) :: l
          | _, _, _, _ => none
        | _ => none
      else if e = 'U' then
        match r2 with
        | h1 :: h2 :: h3 :: h4 :: h5 :: h6 :: h7 :: h8 :: r3 =>
          match hexDigit h1, hexDigit h2, hexDigit h3, hexDigit h4,
              hexDigit h5, hexDigit h6, hexDigit h7, hexDigit h8 with
          | some a, some b, some c, some d, some x, some y, some z, some w =>
            (pyUnicodeEscape r3).map fun l =>
              Char.ofNat (((((((a * 16 + b) * 16 + c) * 16 + d) * 16 + x)
                * 16 + y) * 16 + z) * 16 + w) :: l
          | _, _, _, _, _, _, _, _ => none
        | _ => none
      else if e = 'N' then none
      else if isOct e then
        match r2 with
        | o2 :: o3 :: r3 =>
          if isOct o2 && isOct o3 then
            (pyUnicodeEscape r3).map fun l =>
              Char.ofNat ((octVal e * 8 + octVal o2) * 8 + octVal o3) :: l
          else if isOct o2 then
            (pyUnicodeEscape (o3 :: r3)).map fun l =>
              Char.ofNat (octVal e * 8 + octVal o2) :: l
          else
            (pyUnicodeEscape (o2 :: o3 :: r3)).map fun l =>
              Char.ofNat (octVal e) :: l
        | [o2] =>
          if isOct o2 then
            (pyUnicodeEscape []).map fun l =>
              Char.ofNat (octVal e * 8 + octVal o2) :: l
          else
            (pyUnicodeEscape [o2]).map fun l => Char.ofNat (octVal e) :: l
        | [] => some [Char.ofNat (octVal e)]
      else (pyUnicodeEscape r2).map fun l => '\\' :: e :: l
  | c :: rest => (pyUnicodeEscape rest).map fun l => c :: l

/-- `CloudflareProvider._cloudflare_extractor`: regex search, then
`unicode_escape` decoding with the two follow-up replaces, falling back to
the four manual replaces when strict decoding fails; empty string when the
pattern is absent. -/
def cloudflare_extractor (chunk : String) : String :=
  match searchWith findCloseCF chunk.data with
  | none => ""
  | some content =>
    match pyUnicodeEscape content with
    | some decoded =>
      String.mk (replace2 '\\' '"' ['"'] (replace2 '\\' '\\' ['\\'] decoded))
    | none =>
      String.mk (replace2 '\\' '\\' ['\\'] (replace2 '\\' '"' ['"']
        (replace2 '\\' 't' ['\t'] (replace2 '\\' 'n' ['\n'] content))))

/-- `TypefullyProvider._typefully_extractor`: regex search (no lookahead),
then the four manual replaces; empty string when the pattern is absent. -/
def typefully_extractor (chunk : String) : String :=
  match searchWith findCloseTF chunk.data with
  | none => ""
  | some content =>
    String.mk (replace2 '\\' '\\' ['\\'] (replace2 '\\' '"' ['"']
      (replace2 '\\' 't' ['\t'] (replace2 '\\' 'n' ['\n'] content))))

/-! ## Provider adapters -/

/-- The shared fallback line loop of cloudflare and typefully: for every
line of the body, if the stripped line is non-empty, run the extractor and
append a non-empty result to the accumulated response. -/
def collectLines (extractor : String → String) : List String → String
  | [] => ""
  | line :: rest =>
    (if pyStrip line ≠ "" then
      (if extractor line ≠ "" then extractor line else "")
    else "") ++ collectLines extractor rest

/-- `CloudflareProvider.chat_completion` after a successful upstream call,
as a function of the request messages and the raw response body: extract,
substitute the placeholder on empty extraction, then estimate usage (the
word count is taken after the substitution in this adapter). -/
def cloudflare_process (msgs : List Message) (body : String) :
    ChatCompletionResponse :=
  let full := collectLines cloudflare_extractor (splitLines body)
  let full2 := if full = "" then "No response generated" else full
  let prompt := sumWc msgs
  let completion := if full2 ≠ "" then wordCount full2 else 0
  ⟨full2, "stop", ⟨prompt, completion, prompt + completion⟩⟩

/-- `TypefullyProvider.chat_completion` after a successful upstream call:
extract, clean up escape remnants when non-empty, estimate usage; no
placeholder is substituted. -/
def typefully_process (msgs : List Message) (body : String) :
    ChatCompletionResponse :=
  let full := collectLines typefully_extractor (splitLines body)
  let cleaned :=
    if full ≠ "" then
      String.mk (replace4 '\\' 'n' '\\' 'n' ['\n', '\n']
        (replace2 '\\' 'n' ['\n'] full.data))
    else full
  let prompt := sumWc msgs
  let completion := if cleaned ≠ "" then wordCount cleaned else 0
  ⟨cleaned, "stop", ⟨prompt, completion, prompt + completion⟩⟩

/-- The message scan of `FlowithProvider.chat_completion`: the loop keeps
the content of the last user-role message and the last system-role message
(defaulting the system prompt). -/
def flowith_extract_user (msgs : List Message) : String × String :=
  msgs.foldl
    (fun acc m =>
      if m.role = "user" then (m.content, acc.2)
      else if m.role = "system" then (acc.1, m.content)
      else acc)
    ("", "You are a helpful assistant.")

/-- `FlowithProvider.chat_completion` with the upstream `Flowith` client
abstracted to the full reply string it would produce: the adapter fails
(before any upstream call, wrapped by the outer handler) when the scanned
user message is empty, and otherwise returns the reply with estimated
usage. -/
def flowith_chat (msgs : List Message) (reply : String) :
    Except String ChatCompletionResponse :=
  let u := (flowith_extract_user msgs).1
  if u = "" then .error "Flowith provider error: No user message found"
  else
    let prompt := sumWc msgs
    let completion := if reply ≠ "" then wordCount reply else 0
    .ok ⟨reply, "stop", ⟨prompt, completion, prompt + completion⟩⟩

/-- One parsed SSE delta of the MiniMax stream: the optional
`choices[0].delta.content` and `choices[0].delta.reasoning_content`
fields. -/
structure MDelta where
  content : Option String
  reasoning_content : Option String
deriving DecidableEq

/-- Contribution of one delta to the answer text (`if content:` keeps only
truthy, i.e. non-empty, fragments). -/
def deltaContent (d : MDelta) : String :=
  match d.content with
  | some c => if c ≠ "" then c else ""
  | none => ""

/-- Contribution of one delta to the collected reasoning. -/
def deltaThink (d : MDelta) : String :=
  match d.reasoning_content with
  | some c => if c ≠ "" then c else ""
  | none => ""

/-- The collection loop of `MinimaxProvider.chat_completion`: concatenated
answer fragments and concatenated `reasoning_content` fragments, in stream
order. -/
def minimax_collect : List MDelta → String × String
  | [] => ("", "")
  | d :: rest =>
    (deltaContent d ++ (minimax_collect rest).1,
     deltaThink d ++ (minimax_collect rest).2)

/-- `MinimaxProvider.chat_completion` after a successful upstream call, as
a function of the request messages and the parsed stream deltas: usage is
estimated from the raw collected answer, then the placeholder is
substituted, then the thinking block is prepended when reasoning was
collected. -/
def minimax_process (msgs : List Message) (deltas : List MDelta) :
    ChatCompletionResponse :=
  let full := (minimax_collect deltas).1
  let think := (minimax_collect deltas).2
  let prompt := sumWc msgs
  let completion := if full ≠ "" then wordCount full else 0
  let full2 := if full = "" then "No response generated" else full
  let content :=
    if think ≠ "" then
      "<thinking>\n" ++ think ++ "\n</thinking>\n\n" ++ full2
    else full2
  ⟨content, "stop", ⟨prompt, completion, prompt + completion⟩⟩

/-! ## OIVSCode mirrored-endpoint adapter (`providers/oivscode.py`) -/

/-- One choice object of an OIVSCode upstream JSON reply:
`message.content` when present, and the optional `finish_reason`. -/
structure OIChoiceData where
  content : Option String
  finish_reason : Option String
deriving DecidableEq

/-- One upstream JSON reply: HTTP status, the `choices` array and the
optional `usage` fields. -/
structure OIReply where
  status : Nat
  choices : List OIChoiceData
  usage_prompt : Option Nat
  usage_completion : Option Nat
  usage_total : Option Nat
deriving DecidableEq

/-- Outcome of contacting one mirror: a transport error / timeout
(`failure`), or a reply. -/
inductive MirrorOutcome where
  | failure
  | reply (r : OIReply)
deriving DecidableEq

/-- The response `OIVSCodeProvider.chat_completion` builds from a
successful reply: first choice content (default empty), its finish reason
(default `stop`), and the upstream-reported usage (defaults 0). -/
def buildOIResponse (c : OIChoiceData) (r : OIReply) : ChatCompletionResponse :=
  ⟨c.content.getD "", c.finish_reason.getD "stop",
   ⟨r.usage_prompt.getD 0, r.usage_completion.getD 0, r.usage_total.getD 0⟩⟩

/-- Whether one mirror outcome lets the loop return: status 200 and a
non-empty `choices` array; if so, the normalized response. -/
def respOf : MirrorOutcome → Option ChatCompletionResponse
  | .failure => none
  | .reply r =>
    if r.status = 200 then
      match r.choices with
      | [] => none
      | c :: _ => some (buildOIResponse c r)
    else none

/-- The failover loop of `OIVSCodeProvider.chat_completion` over the
(already shuffled) endpoint list, each endpoint abstracted to its outcome:
return the first success, raise `All OI-VSCode API endpoints failed` after
exhausting the list. -/
def tryEndpoints : List MirrorOutcome → Except String ChatCompletionResponse
  | [] => .error "All OI-VSCode API endpoints failed"
  | o :: rest =>
    match respOf o with
    | some resp => .ok resp
    | none => tryEndpoints rest

/-! ## Completion dispatcher (`create_chat_completion` in `main.py`) -/

/-- A FastAPI `HTTPException` as raised by the dispatcher. -/
structure HTTPException where
  status_code : Nat
  detail : String
deriving DecidableEq

/-- What the dispatcher hands to the HTTP layer: the provider response as
JSON, or the synthetic stream. -/
inductive DispatchOutcome where
  | json (resp : ChatCompletionResponse)
  | streamed (frames : List Frame)
deriving DecidableEq

/-- Python `repr` of a list of strings, as interpolated into the
`ModelNotFound` detail message (assumes the names contain no quotes, as
all registered model ids do). -/
def joinComma : List String → String
  | [] => ""
  | [s] => "\x27" ++ s ++ "\x27"
  | s :: t :: rest => "\x27" ++ s ++ "\x27, " ++ joinComma (t :: rest)

/-- Python `repr(sorted(ALL_MODELS))` wrapped in brackets. -/
def pyListRepr (l : List String) : String :=
  "[" ++ joinComma l ++ "]"

/-- The detail string of the 400 error for an unknown model. -/
def notFoundDetail (m : String) : String :=
  "Model \x27" ++ m ++ "\x27 not found. Available models: " ++
    pyListRepr sortedAllModels

/-- `create_chat_completion` of `main.py`, with the provider invocation
abstracted to its result (`.error` when the provider raised): the model
check (HTTP 400 listing the sorted catalog), the defensive provider
lookup (HTTP 500), the wrapping of any provider exception (HTTP 500), and
the choice between a JSON response and the re-streamed answer. -/
def dispatch (req : ChatCompletionRequest)
    (providerResult : Except String ChatCompletionResponse) :
    Except HTTPException DispatchOutcome :=
  if req.model ∉ ALL_MODELS then
    .error ⟨400, notFoundDetail req.model⟩
  else
    match MODEL_PROVIDER_MAP req.model with
    | none => .error ⟨500, "No provider found for model: " ++ req.model⟩
    | some p =>
      if p = "" ∨ p ∉ PROVIDER_KEYS then
        .error ⟨500, "No provider found for model: " ++ req.model⟩
      else
        match providerResult with
        | .error e => .error ⟨500, "Error generating response: " ++ e⟩
        | .ok resp =>
          if req.stream then .ok (.streamed (stream_chat_completion resp.content))
          else .ok (.json resp)


/-! ## Registry lemmas -/

/-- Once the registry write loop has assigned a provider for a model, the
entry stays assigned (possibly overwritten by a later provider). -/
theorem mpmAux_some :
    ∀ (l : List (String × List String)) (m x : String),
      ∃ y, mpmAux m (some x) l = some y
  | [], _, x => ⟨x, rfl⟩
  | p :: rest, m, x => by
    simp only [mpmAux]
    by_cases h : m ∈ p.2
    · simp only [if_pos h]
      exact mpmAux_some rest m p.1
    · simp only [if_neg h]
      exact mpmAux_some rest m x

/-- If some provider in the remaining list declares the model, the write
loop ends with an assignment. -/
theorem mpmAux_some_of_exists :
    ∀ (l : List (String × List String)) (m : String) (acc : Option String),
      (∃ p ∈ l, m ∈ p.2) → ∃ y, mpmAux m acc l = some y
  | [], _, _, h => absurd h (by simp)
  | p :: rest, m, acc, h => by
    simp only [mpmAux]
    by_cases hp : m ∈ p.2
    · simp only [if_pos hp]
      exact mpmAux_some rest m p.1
    · simp only [if_neg hp]
      rcases h with ⟨q, hq, hmq⟩
      rcases List.mem_cons.mp hq with rfl | hq2
      · exact absurd hmq hp
      · exact mpmAux_some_of_exists rest m acc ⟨q, hq2, hmq⟩

/-- The write loop over an appended list factors through the accumulator. -/
theorem mpmAux_append :
    ∀ (l₁ l₂ : List (String × List String)) (m : String) (acc : Option String),
      mpmAux m acc (l₁ ++ l₂) = mpmAux m (mpmAux m acc l₁) l₂
  | [], _, _, _ => rfl
  | p :: rest, l₂, m, acc => by
    simp only [List.cons_append, mpmAux]
    exact mpmAux_append rest l₂ m _

/-- Providers that do not declare the model leave the entry untouched. -/
theorem mpmAux_skip :
    ∀ (l : List (String × List String)) (m : String) (acc : Option String),
      (∀ q ∈ l, m ∉ q.2) → mpmAux m acc l = acc
  | [], _, _, _ => rfl
  | p :: rest, m, acc, h => by
    simp only [mpmAux, if_neg (h p (List.mem_cons_self p rest))]
    exact mpmAux_skip rest m acc fun q hq => h q (List.mem_cons_of_mem p hq)

/-- The write loop only assigns names of providers in the list. -/
theorem mpmAux_mem_keys :
    ∀ (l : List (String × List String)) (m : String) (acc : Option String)
      (p : String), mpmAux m acc l = some p →
        acc = some p ∨ p ∈ l.map Prod.fst
  | [], _, _, _, h => Or.inl h
  | q :: rest, m, acc, p, h => by
    simp only [mpmAux] at h
    by_cases hq : m ∈ q.2
    · rw [if_pos hq] at h
      rcases mpmAux_mem_keys rest m _ p h with h2 | h2
      · exact Or.inr (by simp [Option.some_inj.mp h2])
      · exact Or.inr (List.mem_cons_of_mem _ h2)
    · rw [if_neg hq] at h
      rcases mpmAux_mem_keys rest m acc p h with h2 | h2
      · exact Or.inl h2
      · exact Or.inr (List.mem_cons_of_mem _ h2)

/-- Membership in the dedup fold: an element is in the result exactly when
it is in the accumulator or in the remaining input. -/
theorem dedup_foldl_mem :
    ∀ (l acc : List String) (x : String),
      x ∈ l.foldl (fun acc x => if x ∈ acc then acc else acc ++ [x]) acc ↔
        x ∈ acc ∨ x ∈ l
  | [], acc, x => by simp
  | a :: rest, acc, x => by
    simp only [List.foldl_cons]
    rw [dedup_foldl_mem rest _ x]
    by_cases h : a ∈ acc
    · simp only [if_pos h, List.mem_cons]
      constructor
      · rintro (hx | hx)
        · exact Or.inl hx
        · exact Or.inr (Or.inr hx)
      · rintro (hx | rfl | hx)
        · exact Or.inl hx
        · exact Or.inl h
        · exact Or.inr hx
    · simp only [if_neg h, List.mem_append, List.mem_cons,
        List.not_mem_nil, or_false]
      constructor
      · rintro ((hx | rfl) | hx)
        · exact Or.inl hx
        · exact Or.inr (Or.inl rfl)
        · exact Or.inr (Or.inr hx)
      · rintro (hx | rfl | hx)
        · exact Or.inl (Or.inl hx)
        · exact Or.inl (Or.inr rfl)
        · exact Or.inr hx

/-- The dedup fold preserves freedom from duplicates. -/
theorem dedup_foldl_nodup :
    ∀ (l acc : List String), acc.Nodup →
      (l.foldl (fun acc x => if x ∈ acc then acc else acc ++ [x]) acc).Nodup
  | [], _, h => h
  | a :: rest, acc, h => by
    simp only [List.foldl_cons]
    by_cases ha : a ∈ acc
    · rw [if_pos ha]
      exact dedup_foldl_nodup rest acc h
    · rw [if_neg ha]
      refine dedup_foldl_nodup rest _ ?_
      rw [List.nodup_append]
      refine ⟨h, List.nodup_singleton a, ?_⟩
      intro x hx hxa
      rw [List.mem_singleton] at hxa
      exact ha (hxa ▸ hx)

/-- The deduplicated catalog has the same members as the concatenation. -/
theorem mem_dedupKeepFirst (l : List String) (x : String) :
    x ∈ dedupKeepFirst l ↔ x ∈ l := by
  unfold dedupKeepFirst
  rw [dedup_foldl_mem]
  simp

/-! ## C1: registry invariant, last-write-wins -/

/-- C1: for every provider configuration, the aggregated catalog has no
duplicate ids, every catalog id resolves to exactly one provider name, and
when several providers declare the same id the resolution picks the
last-registered one. -/
theorem C1_registry_last_write_wins :
    ∀ provs : List (String × List String),
      (allModels provs).Nodup
      ∧ (∀ m, m ∈ allModels provs →
          ∃ p, modelProviderMap provs m = some p
            ∧ ∀ q, modelProviderMap provs m = some q → q = p)
      ∧ (∀ pre n ms post m, provs = pre ++ (n, ms) :: post → m ∈ ms →
          (∀ q ∈ post, m ∉ q.2) → modelProviderMap provs m = some n) := by
  intro provs
  refine ⟨dedup_foldl_nodup _ [] List.nodup_nil, ?_, ?_⟩
  · intro m hm
    unfold allModels at hm
    rw [mem_dedupKeepFirst] at hm
    unfold allModelsRaw at hm
    rw [List.mem_flatten] at hm
    rcases hm with ⟨ms, hms, hmm⟩
    rcases List.mem_map.mp hms with ⟨p, hp, rfl⟩
    rcases mpmAux_some_of_exists provs m none ⟨p, hp, hmm⟩ with ⟨y, hy⟩
    exact ⟨y, hy, fun q hq => by
      unfold modelProviderMap at hq
      rw [hy] at hq
      exact (Option.some_inj.mp hq).symm⟩
  · intro pre n ms post m hsplit hmem hpost
    subst hsplit
    unfold modelProviderMap
    rw [mpmAux_append]
    simp only [mpmAux, if_pos hmem]
    exact mpmAux_skip post m (some n) hpost

/-- Witness for C1 at a concrete configuration with a duplicated model id:
the catalog is duplicate-free and the id resolves to the later provider. -/
theorem C1_registry_last_write_wins_witness :
    (allModels [("p1", ["m"]), ("p2", ["m"])]).Nodup
    ∧ modelProviderMap [("p1", ["m"]), ("p2", ["m"])] "m" = some "p2" := by
  have h := C1_registry_last_write_wins [("p1", ["m"]), ("p2", ["m"])]
  refine ⟨h.1, ?_⟩
  exact h.2.2 [("p1", ["m"])] "p2" ["m"] [] "m" rfl (by decide) (by decide)

/-! ## C2: unknown model yields 400 with the sorted catalog -/

/-- C2: a completion request for a model outside the registry fails with
HTTP 400 whose detail enumerates the catalog; the enumerated list is
lexicographically sorted and is a permutation of the full catalog. -/
theorem C2_model_not_found_sorted :
    ∀ (m : String) (msgs : List Message) (stream : Bool)
      (pr : Except String ChatCompletionResponse),
      m ∉ ALL_MODELS →
        dispatch ⟨m, msgs, stream⟩ pr =
          .error ⟨400, notFoundDetail m⟩
        ∧ List.Sorted (· ≤ ·) sortedAllModels
        ∧ sortedAllModels.Perm ALL_MODELS := by
  intro m msgs stream pr h
  refine ⟨?_, ?_, ?_⟩
  · unfold dispatch
    simp only [if_pos h]
  · exact List.sorted_insertionSort (· ≤ ·) ALL_MODELS
  · exact List.perm_insertionSort (· ≤ ·) ALL_MODELS

set_option maxRecDepth 40000 in
/-- Witness for C2: the concrete model string `unknown-model` is not in
the registry and is rejected with status 400. -/
theorem C2_model_not_found_sorted_witness :
    dispatch ⟨"unknown-model", [], false⟩
        (.ok ⟨"x", "stop", ⟨0, 0, 0⟩⟩) =
      .error ⟨400, notFoundDetail "unknown-model"⟩ := by
  exact (C2_model_not_found_sorted "unknown-model" [] false
    (.ok ⟨"x", "stop", ⟨0, 0, 0⟩⟩) (by decide)).1


end Omegatron


namespace Omegatron

/-! ## Helper lemmas -/

/-- The guarded word count `len(s.split()) if s else 0` equals the plain
word count, since the empty string has no words. -/
theorem wordCount_guard (s : String) :
    (if s ≠ "" then wordCount s else 0) = wordCount s := by
  by_cases h : s = ""
  · subst h; simp; rfl
  · simp [h]

/-- A concatenation of strings is empty exactly when both parts are. -/
theorem string_append_eq_empty {a b : String} :
    a ++ b = "" ↔ a = "" ∧ b = "" := by
  constructor
  · intro h
    have hd : (a ++ b).data = ([] : List Char) := by rw [h]
    rw [String.data_append] at hd
    rcases List.append_eq_nil.mp hd with ⟨ha, hb⟩
    exact ⟨String.ext ha, String.ext hb⟩
  · rintro ⟨rfl, rfl⟩
    rfl

/-- The content frames emitted by the loop are exactly the delta strings
of `contentChunks`, each wrapped as a chunk with no finish reason. -/
theorem emitContent_eq :
    ∀ (first : Bool) (ws : List String),
      emitContent first ws =
        (contentChunks first ws).map fun c => Frame.chunk (some c) none
  | _, [] => rfl
  | _, [_] => rfl
  | _, [_, _] => rfl
  | first, a :: b :: c :: rest => by
    simp [emitContent, contentChunks, emitContent_eq false rest]

/-! ## C3: the re-streaming emitter -/

/-- C3: the Re-streaming Emitter splits its input into whitespace words,
windows of three, space-prefixing every window but the first, then emits
one empty-delta stop chunk and the `[DONE]` sentinel.  For `"a b c d e"`
the content chunks are exactly `"a b c"` and `" d e"`; for `""` only the
stop chunk and sentinel are emitted. -/
theorem C3_restream_emitter :
    stream_chat_completion "a b c d e" =
      [Frame.chunk (some "a b c") none, Frame.chunk (some " d e") none,
       Frame.chunk none (some "stop"), Frame.doneSentinel]
    ∧ stream_chat_completion "" =
        [Frame.chunk none (some "stop"), Frame.doneSentinel]
    ∧ ∀ content : String,
        stream_chat_completion content =
          ((contentChunks true (pySplit content)).map
            fun c => Frame.chunk (some c) none) ++
          [Frame.chunk none (some "stop"), Frame.doneSentinel] := by
  refine ⟨by decide, by decide, ?_⟩
  intro content
  unfold stream_chat_completion
  rw [emitContent_eq]

end Omegatron

namespace Omegatron

/-! ## C4: OIVSCode mirror failover -/

/-- Mirrors that do not yield a success are skipped by the failover loop. -/
theorem tryEndpoints_skip :
    ∀ (pre l : List MirrorOutcome), (∀ q ∈ pre, respOf q = none) →
      tryEndpoints (pre ++ l) = tryEndpoints l
  | [], _, _ => rfl
  | o :: pre, l, h => by
    simp only [List.cons_append, tryEndpoints, h o (List.mem_cons_self o pre)]
    exact tryEndpoints_skip pre l fun q hq => h q (List.mem_cons_of_mem o hq)

/-- When every mirror fails, the loop falls through to the final raise. -/
theorem tryEndpoints_all_fail :
    ∀ l : List MirrorOutcome, (∀ q ∈ l, respOf q = none) →
      tryEndpoints l = .error "All OI-VSCode API endpoints failed"
  | [], _ => rfl
  | o :: rest, h => by
    simp only [tryEndpoints, h o (List.mem_cons_self o rest)]
    exact tryEndpoints_all_fail rest fun q hq => h q (List.mem_cons_of_mem o hq)

/-- Every registered model resolves to a provider name that passes the
dispatcher's defensive checks (non-empty and a key of `PROVIDERS`). -/
theorem resolve_of_mem (m : String) (h : m ∈ ALL_MODELS) :
    ∃ p, MODEL_PROVIDER_MAP m = some p ∧ ¬(p = "" ∨ p ∉ PROVIDER_KEYS) := by
  unfold ALL_MODELS allModels at h
  rw [mem_dedupKeepFirst] at h
  unfold allModelsRaw at h
  rw [List.mem_flatten] at h
  obtain ⟨ms, hms, hm⟩ := h
  obtain ⟨pr, hpr, rfl⟩ := List.mem_map.mp hms
  obtain ⟨y, hy⟩ := mpmAux_some_of_exists PROVIDERS m none ⟨pr, hpr, hm⟩
  refine ⟨y, hy, ?_⟩
  have hk : y ∈ PROVIDERS.map Prod.fst := by
    rcases mpmAux_mem_keys PROVIDERS m none y hy with h2 | h2
    · exact Option.noConfusion h2
    · exact h2
  have hne : y ≠ "" := by
    simp only [PROVIDERS, List.map_cons, List.map_nil, List.mem_cons,
      List.not_mem_nil, or_false] at hk
    rcases hk with rfl | rfl | rfl | rfl <;> decide
  rw [not_or, not_not]
  exact ⟨hne, hk⟩

/-- C4: the mirrored-endpoint adapter returns the first succeeding
mirror's normalized result, regardless of how many earlier mirrors failed,
and raises `AllEndpointsFailed` only when every mirror failed, in which
case the dispatcher surfaces HTTP 500. -/
theorem C4_oivscode_failover :
    (∀ (pre post : List MirrorOutcome) (o : MirrorOutcome)
        (resp : ChatCompletionResponse),
        (∀ q ∈ pre, respOf q = none) → respOf o = some resp →
          tryEndpoints (pre ++ o :: post) = .ok resp)
    ∧ (∀ outs : List MirrorOutcome, (∀ q ∈ outs, respOf q = none) →
        tryEndpoints outs = .error "All OI-VSCode API endpoints failed")
    ∧ (∀ (m : String) (msgs : List Message) (stream : Bool),
        m ∈ ALL_MODELS →
          dispatch ⟨m, msgs, stream⟩
              (.error "All OI-VSCode API endpoints failed") =
            .error ⟨500,
              "Error generating response: All OI-VSCode API endpoints failed"⟩) := by
  refine ⟨?_, tryEndpoints_all_fail, ?_⟩
  · intro pre post o resp hpre ho
    rw [tryEndpoints_skip pre (o :: post) hpre]
    simp only [tryEndpoints, ho]
  · intro m msgs stream h
    obtain ⟨p, hp, hcond⟩ := resolve_of_mem m h
    simp only [dispatch]
    rw [if_neg (not_not_intro h), hp]
    simp only [if_neg hcond]
    decide

set_option maxRecDepth 40000 in
/-- Witness for C4: one failing mirror followed by a succeeding one
returns the success; two failing mirrors raise, and a registered model
surfaces the raise as HTTP 500. -/
theorem C4_oivscode_failover_witness :
    tryEndpoints
        [.failure, .reply ⟨200, [⟨some "hi", none⟩], none, none, none⟩] =
      .ok ⟨"hi", "stop", ⟨0, 0, 0⟩⟩
    ∧ tryEndpoints [.failure, .reply ⟨500, [], none, none, none⟩] =
        .error "All OI-VSCode API endpoints failed"
    ∧ dispatch ⟨"kimi-k2", [], false⟩
          (.error "All OI-VSCode API endpoints failed") =
        .error ⟨500,
          "Error generating response: All OI-VSCode API endpoints failed"⟩ := by
  refine ⟨?_, ?_, ?_⟩
  · exact C4_oivscode_failover.1 [.failure] []
      (.reply ⟨200, [⟨some "hi", none⟩], none, none, none⟩)
      ⟨"hi", "stop", ⟨0, 0, 0⟩⟩ (by decide) (by decide)
  · exact C4_oivscode_failover.2.1
      [.failure, .reply ⟨500, [], none, none, none⟩] (by decide)
  · exact C4_oivscode_failover.2.2 "kimi-k2" [] false (by decide)

/-! ## C7: the `0:"..."` extractors -/

/-- A chunk without the `0:"` marker makes any search fail. -/
theorem searchWith_none_of_no_marker
    (close : List Char → Option (List Char)) :
    ∀ l : List Char, hasMarker l = false → searchWith close l = none
  | [], _ => rfl
  | c :: rest, h => by
    unfold hasMarker at h
    rw [Bool.or_eq_false_iff] at h
    unfold searchWith
    rw [if_neg (by simp [h.1])]
    exact searchWith_none_of_no_marker close rest h.2

/-- C7: on the raw chunk `0:"hello\n world"` (with the two-character
escape) both extractors return the text with a real newline; on any chunk
in which the `0:"..."` pattern is absent they return the empty string. -/
theorem C7_extractor_unescape :
    cloudflare_extractor "0:\"hello\\n world\"" = "hello\n world"
    ∧ typefully_extractor "0:\"hello\\n world\"" = "hello\n world"
    ∧ ∀ chunk : String, hasMarker chunk.data = false →
        cloudflare_extractor chunk = "" ∧ typefully_extractor chunk = "" := by
  refine ⟨by decide, by decide, ?_⟩
  intro chunk h
  unfold cloudflare_extractor typefully_extractor
  rw [searchWith_none_of_no_marker findCloseCF chunk.data h,
    searchWith_none_of_no_marker findCloseTF chunk.data h]
  exact ⟨rfl, rfl⟩

/-- Witness for C7: a concrete chunk without the pattern extracts to the
empty string. -/
theorem C7_extractor_unescape_witness :
    cloudflare_extractor "event: ping" = ""
    ∧ typefully_extractor "event: ping" = "" := by
  exact C7_extractor_unescape.2.2 "event: ping" (by decide)

/-! ## C9: flowith user-message validation -/

/-- If no message has the user role, the flowith scan leaves the user
message empty. -/
theorem flowith_fold_no_user :
    ∀ (msgs : List Message) (acc : String × String),
      (∀ m ∈ msgs, m.role ≠ "user") →
      (msgs.foldl
        (fun acc m =>
          if m.role = "user" then (m.content, acc.2)
          else if m.role = "system" then (acc.1, m.content)
          else acc) acc).1 = acc.1
  | [], _, _ => rfl
  | m :: rest, acc, h => by
    simp only [List.foldl_cons]
    rw [if_neg (h m (List.mem_cons_self m rest))]
    by_cases hs : m.role = "system"
    · rw [if_pos hs]
      exact flowith_fold_no_user rest _ fun q hq => h q (List.mem_cons_of_mem m hq)
    · rw [if_neg hs]
      exact flowith_fold_no_user rest _ fun q hq => h q (List.mem_cons_of_mem m hq)

/-- C9 counterexample: a request with two (non-empty) user messages is
not rejected — the adapter uses the last user message and succeeds, so
"exactly one user message" is not required. -/
theorem C9_flowith_two_users_counterexample :
    flowith_chat [⟨"user", "first"⟩, ⟨"user", "second"⟩] "ok" =
      .ok ⟨"ok", "stop", ⟨2, 1, 3⟩⟩ := by decide

/-- C9 amended: the flowith adapter fails fast — independently of any
upstream reply — exactly when the message scan leaves the user message
empty (no user-role message at all, or the last user-role message has
empty content); otherwise it succeeds with the upstream reply. -/
theorem C9_flowith_user_validation :
    ∀ (msgs : List Message) (reply : String),
      ((flowith_extract_user msgs).1 = "" →
        ∀ r : String, flowith_chat msgs r =
          .error "Flowith provider error: No user message found")
      ∧ ((flowith_extract_user msgs).1 ≠ "" →
          flowith_chat msgs reply =
            .ok ⟨reply, "stop",
              ⟨sumWc msgs, wordCount reply, sumWc msgs + wordCount reply⟩⟩)
      ∧ ((∀ m ∈ msgs, m.role ≠ "user") → (flowith_extract_user msgs).1 = "") := by
  intro msgs reply
  refine ⟨?_, ?_, ?_⟩
  · intro h r
    simp only [flowith_chat, h, reduceIte]
  · intro h
    simp only [flowith_chat, h, reduceIte, wordCount_guard]
  · intro h
    exact flowith_fold_no_user msgs ("", "You are a helpful assistant.") h

/-- Witness for C9: a single non-empty user message passes validation and
the reply is returned with estimated usage. -/
theorem C9_flowith_user_validation_witness :
    flowith_chat [⟨"user", "hello world"⟩] "hi" =
      .ok ⟨"hi", "stop", ⟨2, 1, 3⟩⟩ := by
  exact (C9_flowith_user_validation [⟨"user", "hello world"⟩] "hi").2.1
    (by decide)

/-! ## C5: the empty-extraction placeholder -/

/-- C5 counterexample: the typefully adapter does not substitute a
placeholder — a body from which nothing is extracted produces a response
whose content is the empty string. -/
theorem C5_typefully_empty_counterexample :
    (typefully_process [⟨"user", "hi"⟩] "").content = ""
    ∧ (typefully_process [⟨"user", "hi"⟩] "").content ≠
        "No response generated" := by
  exact ⟨by decide, by decide⟩

/-- C5 amended: only the cloudflare and minimax adapters substitute the
literal placeholder `No response generated` when extraction yields no
text; the typefully adapter returns the (possibly empty) extracted
content as-is. -/
theorem C5_placeholder_only_cloudflare_minimax :
    ∀ (msgs : List Message) (body : String) (msgs2 : List Message)
      (deltas : List MDelta) (msgs3 : List Message) (body2 : String),
      (collectLines cloudflare_extractor (splitLines body) = "" →
        (cloudflare_process msgs body).content = "No response generated")
      ∧ ((minimax_collect deltas).1 = "" →
          (minimax_process msgs2 deltas).content = "No response generated"
          ∨ (minimax_process msgs2 deltas).content =
              "<thinking>\n" ++ (minimax_collect deltas).2 ++
                "\n</thinking>\n\n" ++ "No response generated")
      ∧ (collectLines typefully_extractor (splitLines body2) = "" →
          (typefully_process msgs3 body2).content = "") := by
  intro msgs body msgs2 deltas msgs3 body2
  refine ⟨?_, ?_, ?_⟩
  · intro h
    simp only [cloudflare_process, h, reduceIte]
  · intro h
    by_cases ht : (minimax_collect deltas).2 = ""
    · left
      simp only [minimax_process, h, ht, reduceIte]
      decide
    · right
      simp only [minimax_process, h, reduceIte]
      rw [if_pos ht]
  · intro h
    simp only [typefully_process, h, reduceIte]
    decide

/-- Witness for C5 at concrete empty bodies. -/
theorem C5_placeholder_only_cloudflare_minimax_witness :
    (cloudflare_process [] "").content = "No response generated"
    ∧ (typefully_process [] "").content = "" := by
  have h := C5_placeholder_only_cloudflare_minimax [] "" [] [] [] ""
  exact ⟨h.1 (by decide), h.2.2 (by decide)⟩

end Omegatron

namespace Omegatron

/-! ## C6: estimated token usage -/

/-- C6: every adapter that estimates usage sets `promptTokens` to the sum
of the whitespace-word counts of the request messages, `completionTokens`
to the word count of the text it produced (the returned content for
flowith, cloudflare and typefully; the collected answer text for
minimax), and `totalTokens` to their sum; in particular `"a b c"` counts
as 3 prompt words and `"x y"` as 2 completion words. -/
theorem C6_usage_word_counts :
    (∀ (msgs : List Message) (reply : String) (r : ChatCompletionResponse),
        flowith_chat msgs reply = .ok r →
          r.usage =
            ⟨sumWc msgs, wordCount reply, sumWc msgs + wordCount reply⟩)
    ∧ (∀ (msgs : List Message) (body : String),
        (cloudflare_process msgs body).usage =
          ⟨sumWc msgs, wordCount (cloudflare_process msgs body).content,
           sumWc msgs + wordCount (cloudflare_process msgs body).content⟩)
    ∧ (∀ (msgs : List Message) (body : String),
        (typefully_process msgs body).usage =
          ⟨sumWc msgs, wordCount (typefully_process msgs body).content,
           sumWc msgs + wordCount (typefully_process msgs body).content⟩)
    ∧ (∀ (msgs : List Message) (deltas : List MDelta),
        (minimax_process msgs deltas).usage =
          ⟨sumWc msgs, wordCount (minimax_collect deltas).1,
           sumWc msgs + wordCount (minimax_collect deltas).1⟩)
    ∧ sumWc [⟨"user", "a b c"⟩] = 3 ∧ wordCount "x y" = 2 := by
  refine ⟨?_, ?_, ?_, ?_, by decide, by decide⟩
  · intro msgs reply r h
    by_cases hu : (flowith_extract_user msgs).1 = ""
    · simp only [flowith_chat, hu, reduceIte] at h
      exact Except.noConfusion h
    · simp only [flowith_chat, hu, reduceIte, wordCount_guard] at h
      rw [← Except.ok.inj h]
  · intro msgs body
    simp only [cloudflare_process, wordCount_guard]
  · intro msgs body
    simp only [typefully_process, wordCount_guard]
  · intro msgs deltas
    simp only [minimax_process, wordCount_guard]

/-- Witness for C6 at the spec's concrete example. -/
theorem C6_usage_word_counts_witness :
    (⟨"x y", "stop", ⟨3, 2, 5⟩⟩ : ChatCompletionResponse).usage =
      ⟨sumWc [⟨"user", "a b c"⟩], wordCount "x y",
       sumWc [⟨"user", "a b c"⟩] + wordCount "x y"⟩ := by
  exact C6_usage_word_counts.1 [⟨"user", "a b c"⟩] "x y"
    ⟨"x y", "stop", ⟨3, 2, 5⟩⟩ (by decide)

/-! ## C8: the minimax thinking channel -/

/-- A delta contributes to the collected reasoning exactly when it carries
a non-empty `reasoning_content` fragment. -/
theorem deltaThink_ne_empty (d : MDelta) :
    deltaThink d ≠ "" ↔
      ∃ rc, d.reasoning_content = some rc ∧ rc ≠ "" := by
  unfold deltaThink
  rcases hd : d.reasoning_content with _ | c
  · simp
  · by_cases hc : c = ""
    · simp [hc]
    · simp [hc]

/-- The collected reasoning is non-empty exactly when some delta carried a
non-empty `reasoning_content` fragment. -/
theorem minimax_think_nonempty :
    ∀ deltas : List MDelta,
      (minimax_collect deltas).2 ≠ "" ↔
        ∃ d ∈ deltas, ∃ rc, d.reasoning_content = some rc ∧ rc ≠ ""
  | [] => by simp [minimax_collect]
  | d :: rest => by
    simp only [minimax_collect, List.mem_cons]
    constructor
    · intro h
      rcases (not_iff_not.mpr string_append_eq_empty).mp h |> not_and_or.mp with
        h1 | h1
      · obtain ⟨rc, hrc, hne⟩ := (deltaThink_ne_empty d).mp h1
        exact ⟨d, Or.inl rfl, rc, hrc, hne⟩
      · obtain ⟨q, hq, rc, hrc, hne⟩ := (minimax_think_nonempty rest).mp h1
        exact ⟨q, Or.inr hq, rc, hrc, hne⟩
    · rintro ⟨q, hq | hq, rc, hrc, hne⟩
      · intro hcontra
        rcases string_append_eq_empty.mp hcontra with ⟨h1, _⟩
        subst hq
        exact absurd h1 ((deltaThink_ne_empty q).mpr ⟨rc, hrc, hne⟩)
      · intro hcontra
        rcases string_append_eq_empty.mp hcontra with ⟨_, h2⟩
        exact absurd h2
          ((minimax_think_nonempty rest).mpr ⟨q, hq, rc, hrc, hne⟩)

/-- C8: the minimax adapter collects `reasoning_content` fragments; when
at least one non-empty fragment was collected, the final content is the
`<thinking>` block followed by the answer text, and otherwise it is the
answer text alone (in both cases after the empty-answer placeholder
substitution). -/
theorem C8_minimax_thinking :
    ∀ (msgs : List Message) (deltas : List MDelta),
      ((∃ d ∈ deltas, ∃ rc, d.reasoning_content = some rc ∧ rc ≠ "") ↔
        (minimax_collect deltas).2 ≠ "")
      ∧ ((minimax_collect deltas).2 ≠ "" →
          (minimax_process msgs deltas).content =
            "<thinking>\n" ++ (minimax_collect deltas).2 ++
              "\n</thinking>\n\n" ++
              (if (minimax_collect deltas).1 = "" then "No response generated"
               else (minimax_collect deltas).1))
      ∧ ((minimax_collect deltas).2 = "" →
          (minimax_process msgs deltas).content =
            (if (minimax_collect deltas).1 = "" then "No response generated"
             else (minimax_collect deltas).1)) := by
  intro msgs deltas
  refine ⟨(minimax_think_nonempty deltas).symm, ?_, ?_⟩
  · intro h
    simp only [minimax_process]
    rw [if_pos h]
  · intro h
    simp only [minimax_process, h, reduceIte]
    rw [if_neg (by decide : ¬("" ≠ ""))]

/-- Witness for C8: one answer delta plus one reasoning delta produce the
bracketed thinking block before the answer. -/
theorem C8_minimax_thinking_witness :
    (minimax_process [] [⟨some "ans", some "why"⟩]).content =
      "<thinking>\n" ++ (minimax_collect [⟨some "ans", some "why"⟩]).2 ++
        "\n</thinking>\n\n" ++
        (if (minimax_collect [⟨some "ans", some "why"⟩]).1 = ""
         then "No response generated"
         else (minimax_collect [⟨some "ans", some "why"⟩]).1) := by
  exact (C8_minimax_thinking [] [⟨some "ans", some "why"⟩]).2.1 (by decide)

/-! ## C10: minimax completion tokens from the raw answer -/

/-- C10: minimax computes `completionTokens` from the raw collected answer
before any post-processing — for an empty answer stream the response
carries the placeholder while `completionTokens` is 0, and with reasoning
fragments present the count covers only the answer words, never the
thinking block that ends up in the content. -/
theorem C10_minimax_completion_tokens :
    ∀ (msgs : List Message) (deltas : List MDelta),
      (minimax_process msgs deltas).usage.completion_tokens =
        wordCount (minimax_collect deltas).1
      ∧ ((minimax_collect deltas).1 = "" →
          (minimax_process msgs deltas).usage.completion_tokens = 0
          ∧ ((minimax_process msgs deltas).content = "No response generated"
             ∨ (minimax_process msgs deltas).content =
                 "<thinking>\n" ++ (minimax_collect deltas).2 ++
                   "\n</thinking>\n\n" ++ "No response generated")) := by
  intro msgs deltas
  constructor
  · simp only [minimax_process, wordCount_guard]
  · intro h
    constructor
    · simp only [minimax_process, h, reduceIte]
      decide
    · by_cases ht : (minimax_collect deltas).2 = ""
      · left
        simp only [minimax_process, h, ht, reduceIte]
        decide
      · right
        simp only [minimax_process, h, reduceIte]
        rw [if_pos ht]

/-- Witness for C10: a stream with only a reasoning fragment yields zero
completion tokens while the content carries the thinking block and the
placeholder. -/
theorem C10_minimax_completion_tokens_witness :
    (minimax_process [] [⟨none, some "deep thought"⟩]).usage.completion_tokens
      = 0 := by
  exact ((C10_minimax_completion_tokens [] [⟨none, some "deep thought"⟩]).2
    (by decide)).1

end Omegatron
